import Mathlib

/-!
# Sharp LQ070K1SX DSI video mode panel driver

A shallow embedding of `panel-sharp-lq070k1sx.c`.

* The driver's own data (`sharp_pdata`, `sharp_panel_timings`, the command
  tables, `struct sharp_data`) and the device fields it reads and writes are
  explicit state (`World`).
* Every call into the host framework (DSI, mutex, allocator, platform hooks,
  `msleep`) appends an `Event` to `World.trace`; the value such a call returns
  is an input of the model (`Extern`, `ProbeExtern`), so a statement quantified
  over these records holds for every outcome of the external calls.
* Diagnostic printing (`dev_dbg`, `dev_info`, `dev_err`) touches neither the
  panel, the bus nor the driver state and is left out of the trace.
* External calls (the platform hooks included) are taken not to write the device
  fields or the statics that the driver itself reads; execution is sequential.
* A pointer to the private data is an `Option sharp_data`; dereferencing an
  invalid pointer makes the embedded function return `none`.
* `sharp_remove`, `sharp_suspend`, `sharp_resume` and the module registration are
  not embedded; no statement below concerns them.
-/

namespace PanelSharp

/-! ## Constants and types of the host headers -/

/-- Modelled from the spec: the errno constant `EINVAL` of `<linux/errno.h>`,
a header that is not part of the sources. -/
def EINVAL : Int := 22

/-- Modelled from the spec: the errno constant `ENOMEM` of `<linux/errno.h>`,
a header that is not part of the sources. -/
def ENOMEM : Int := 12

/-- Modelled from the spec: `enum omap_dss_display_state` of `<video/omapdss.h>`,
a header that is not part of the sources. The driver names two enumerators;
`OTHER n` stands for any further enumerator of the header (suspended, ...). -/
inductive omap_dss_display_state where
  | OMAP_DSS_DISPLAY_DISABLED
  | OMAP_DSS_DISPLAY_ACTIVE
  | OTHER (n : Nat)
deriving DecidableEq, Repr

open omap_dss_display_state

/-- Modelled from the spec: `struct omap_video_timings` of `<video/omapdss.h>`,
a header that is not part of the sources; the fields are the ones the driver
reads or initialises. All are unsigned machine integers, modelled as `Nat`. -/
structure omap_video_timings where
  x_res : Nat
  y_res : Nat
  pixel_clock : Nat
  hsw : Nat
  hfp : Nat
  hbp : Nat
  vsw : Nat
  vfp : Nat
  vbp : Nat
deriving DecidableEq, Repr

/-- Modelled from the spec: the enumerator `OMAP_DSS_LCD_TFT` of
`<video/omapdss.h>`, a header that is not part of the sources. -/
def OMAP_DSS_LCD_TFT : Nat := 2 ^ 20

/-! ## Driver data -/

def DCS_SLEEP_IN : Nat := 0x10
def DCS_SLEEP_OUT : Nat := 0x11
def DCS_DISPLAY_OFF : Nat := 0x28
def DCS_DISPLAY_ON : Nat := 0x29

def sharp_cmd_sleep_in : List Nat := [DCS_SLEEP_IN]
def sharp_cmd_sleep_out : List Nat := [DCS_SLEEP_OUT]
def sharp_cmd_display_on : List Nat := [DCS_DISPLAY_ON]
def sharp_cmd_display_off : List Nat := [DCS_DISPLAY_OFF]

/-- The kernel's `ARRAY_SIZE` on a byte table. -/
def ARRAY_SIZE (a : List Nat) : Nat := a.length

structure panel_sharp_data where
  x_res : Int
  y_res : Int
deriving DecidableEq, Repr

/-- Initial value of the static `sharp_pdata`. -/
def sharp_pdata_init : panel_sharp_data := { x_res := 800, y_res := 1280 }

/-- Initial value of the static `sharp_panel_timings`; `pixel_clock` has no
initialiser and is therefore zero. -/
def sharp_panel_timings_init : omap_video_timings :=
  { x_res := 800, y_res := 1280, pixel_clock := 0,
    hsw := 64, hfp := 64, hbp := 64, vsw := 1, vfp := 6, vbp := 12 }

/-- Device private data (`struct sharp_data`). The mutex `lock` is observed
through the `mutex_*` events; `dssdev` and `timings` are never read. -/
structure sharp_data where
  channel0 : Int
  channel1 : Int
deriving DecidableEq, Repr

/-- What `dssdev->data` can point to: the only object the driver ever stores
there is the static `sharp_pdata`. -/
inductive panel_data_ptr where
  | sharp_pdata
deriving DecidableEq, Repr

/-- Modelled from the spec: the fields of `struct omap_dss_device`
(`<video/omapdss.h>`, not part of the sources) that the driver uses.
`platform_enable` / `platform_disable` record whether the function pointer is
non-NULL; `drvdata` is what `dev_get_drvdata(&dssdev->dev)` points to, `none`
when the pointer is not valid. -/
structure omap_dss_device where
  state : omap_dss_display_state
  first_vsync : Bool
  platform_enable : Bool
  platform_disable : Bool
  data : Option panel_data_ptr
  panel_config : Nat
  panel_timings : omap_video_timings
  panel_acbi : Nat
  panel_acb : Nat
  ctrl_pixel_size : Nat
  drvdata : Option sharp_data
deriving DecidableEq, Repr

/-- Calls into the host framework, in the order they are made. -/
inductive Event where
  | mutex_init
  | mutex_destroy
  | mutex_lock
  | mutex_unlock
  | kzalloc
  | kfree
  | dev_set_drvdata
  | omap_dsi_request_vc
  | omap_dsi_set_vc_id (channel : Int) (vc_id : Int)
  | omap_dsi_release_vc (channel : Int)
  | dsi_bus_lock
  | dsi_bus_unlock
  | omapdss_dsi_display_enable
  | omapdss_dsi_display_disable (disconnect_lanes : Bool) (enter_ulps : Bool)
  | platform_enable
  | platform_disable
  | omapdss_dsi_vc_enable_hs (channel : Int) (enable : Bool)
  | dsi_vc_dcs_write (channel : Int) (data : List Nat)
  | dsi_video_mode_enable (data_type : Nat)
  | dsi_video_mode_disable
  | msleep (msecs : Nat)
deriving DecidableEq, Repr

/-- The device, the driver's two mutable statics, and the calls made so far. -/
structure World where
  dssdev : omap_dss_device
  sharp_pdata : panel_sharp_data
  sharp_panel_timings : omap_video_timings
  trace : List Event
deriving DecidableEq, Repr

/-- Return values of the external calls made during one `sharp_enable` or
`sharp_disable`. -/
structure Extern where
  omapdss_dsi_display_enable : Int
  platform_enable : Int
  dcs_write_sleep_out : Int
  dcs_write_display_on : Int
  dcs_write_display_off : Int
  dcs_write_sleep_in : Int
deriving DecidableEq, Repr

/-- Outcomes of the external calls made during one `sharp_probe`:
whether `kzalloc` returns a valid pointer, the return value of each DSI call,
and the value found in `sd->channel0` / `sd->channel1` after the respective
`omap_dsi_request_vc`. -/
structure ProbeExtern where
  kzalloc_ok : Bool
  request_vc0 : Int
  vc0 : Int
  set_vc_id0 : Int
  request_vc1 : Int
  vc1 : Int
  set_vc_id1 : Int
deriving DecidableEq, Repr

/-! ## External calls -/

def emit (e : Event) (w : World) : World := { w with trace := w.trace ++ [e] }

def msleep (msecs : Nat) (w : World) : World := emit (.msleep msecs) w

/-- The call `dsi_vc_dcs_write(dssdev, channel, data, len)` sends the first `len`
bytes of `data` and returns `ret`. -/
def dsi_vc_dcs_write (ret : Int) (w : World) (channel : Int) (data : List Nat)
    (len : Nat) : Int × World :=
  (ret, emit (.dsi_vc_dcs_write channel (data.take len)) w)

def dev_get_drvdata (w : World) : Option sharp_data := w.dssdev.drvdata

/-! ## Driver functions -/

def get_panel_data (w : World) : Option panel_data_ptr := w.dssdev.data

def sharp_write_block (ret : Int) (w : World) (data : List Nat) (len : Nat) :
    Option (Int × World) :=
  match dev_get_drvdata w with
  | none => none
  | some sd => some (dsi_vc_dcs_write ret w sd.channel1 data len)

def sharp_config (o : Extern) (w : World) : Option World :=
  let _sd := dev_get_drvdata w
  let _panel_data := get_panel_data w
  /- Issue SLEEP OUT -/
  let w := msleep 100 w
  match sharp_write_block o.dcs_write_sleep_out w sharp_cmd_sleep_out
      (ARRAY_SIZE sharp_cmd_sleep_out) with
  | none => none
  | some (_, w) =>
    /- Issue DISPLAY ON -/
    let w := msleep 120 w
    match sharp_write_block o.dcs_write_display_on w sharp_cmd_display_on
        (ARRAY_SIZE sharp_cmd_display_on) with
    | none => none
    | some (_, w) => some (msleep 10 w)

/-- Lines 289-300 of the source: the part of `sharp_power_on` after both
enable steps succeeded; `r` is the value held by the local `r` there. -/
def sharp_power_on_stream (o : Extern) (r : Int) (w : World) : Option (Int × World) :=
  match dev_get_drvdata w with
  | none => none
  | some sd =>
    /- Switch video and command VCs to high speed mode. -/
    let w := emit (.omapdss_dsi_vc_enable_hs sd.channel0 true) w
    let w := emit (.omapdss_dsi_vc_enable_hs sd.channel1 true) w
    /- Issue configuration commands in HS mode -/
    match sharp_config o w with
    | none => none
    | some w =>
      let w := msleep 10 w
      /- Turn on the video stream -/
      let w := emit (.dsi_video_mode_enable 0x3E) w
      some (r, w)

def sharp_power_on (o : Extern) (w : World) : Option (Int × World) :=
  /- At power on the first vsync has not been received yet -/
  let w := { w with dssdev := { w.dssdev with first_vsync := false } }
  let w := emit .omapdss_dsi_display_enable w
  let r := o.omapdss_dsi_display_enable
  if r ≠ 0 then
    /- err1 -/
    let w := if w.dssdev.platform_disable then emit .platform_disable w else w
    /- err0 -/
    some (r, w)
  else if w.dssdev.platform_enable then
    let w := emit .platform_enable w
    let r := o.platform_enable
    if r ≠ 0 then
      /- err0 -/
      some (r, w)
    else sharp_power_on_stream o r w
  else sharp_power_on_stream o r w

def sharp_power_off (o : Extern) (w : World) : Option World :=
  let _panel_data := get_panel_data w
  /- Display Off -/
  match sharp_write_block o.dcs_write_display_off w sharp_cmd_display_off
      (ARRAY_SIZE sharp_cmd_display_off) with
  | none => none
  | some (_, w) =>
    let w := msleep 100 w
    /- Sleep In -/
    match sharp_write_block o.dcs_write_sleep_in w sharp_cmd_sleep_in
        (ARRAY_SIZE sharp_cmd_sleep_in) with
    | none => none
    | some (_, w) =>
      let w := msleep 100 w
      let w := emit .dsi_video_mode_disable w
      let w := emit (.omapdss_dsi_display_disable false false) w
      let w := if w.dssdev.platform_disable then emit .platform_disable w else w
      some w

def set_state (s : omap_dss_display_state) (w : World) : World :=
  { w with dssdev := { w.dssdev with state := s } }

def sharp_enable (o : Extern) (w : World) : Option (Int × World) :=
  match dev_get_drvdata w with
  | none => none
  | some _sd =>
    let w := emit .mutex_lock w
    if w.dssdev.state ≠ OMAP_DSS_DISPLAY_DISABLED then
      let r := -EINVAL
      /- err0 -/
      let w := emit .mutex_unlock w
      some (r, w)
    else
      let w := emit .dsi_bus_lock w
      match sharp_power_on o w with
      | none => none
      | some (r, w) =>
        let w := emit .dsi_bus_unlock w
        let w := if r ≠ 0 then set_state OMAP_DSS_DISPLAY_DISABLED w
                 else set_state OMAP_DSS_DISPLAY_ACTIVE w
        /- err0 -/
        let w := emit .mutex_unlock w
        some (r, w)

def sharp_disable (o : Extern) (w : World) : Option World :=
  match dev_get_drvdata w with
  | none => none
  | some _sd =>
    let w := emit .mutex_lock w
    let w? : Option World :=
      if w.dssdev.state = OMAP_DSS_DISPLAY_ACTIVE then
        let w := emit .dsi_bus_lock w
        match sharp_power_off o w with
        | none => none
        | some w => some (emit .dsi_bus_unlock w)
      else some w
    match w? with
    | none => none
    | some w =>
      let w := set_state OMAP_DSS_DISPLAY_DISABLED w
      let w := emit .mutex_unlock w
      some w

def sharp_get_timings (w : World) : omap_video_timings := w.dssdev.panel_timings

def sharp_set_timings (w : World) (_timings : omap_video_timings) : World := w

def sharp_check_timings (w : World) (timings : omap_video_timings) : Int :=
  if w.sharp_panel_timings.x_res ≠ timings.x_res ∨
      w.sharp_panel_timings.y_res ≠ timings.y_res ∨
      w.sharp_panel_timings.pixel_clock ≠ timings.pixel_clock ∨
      w.sharp_panel_timings.hsw ≠ timings.hsw ∨
      w.sharp_panel_timings.hfp ≠ timings.hfp ∨
      w.sharp_panel_timings.hbp ≠ timings.hbp ∨
      w.sharp_panel_timings.vsw ≠ timings.vsw ∨
      w.sharp_panel_timings.vfp ≠ timings.vfp ∨
      w.sharp_panel_timings.vbp ≠ timings.vbp then
    -EINVAL
  else 0

/-- Store into a `u16` object. -/
def to_u16 (x : Int) : Nat := (x % 65536).toNat

/-- The pair `(*xres, *yres)` written through the two `u16` out-parameters. -/
def sharp_get_resolution (w : World) : Nat × Nat :=
  (w.sharp_panel_timings.x_res % 65536, w.sharp_panel_timings.y_res % 65536)

/-- The private data reached through `sd`, which is also what the device's
driver-data pointer refers to once `dev_set_drvdata` has run. -/
def set_sd (sd : sharp_data) (w : World) : World :=
  { w with dssdev := { w.dssdev with drvdata := some sd } }

/-- Label `err0` of `sharp_probe`. -/
def sharp_probe_err0 (r : Int) (w : World) : Int × World := (r, w)

/-- Label `err2` of `sharp_probe`; after `kfree` the driver-data pointer no
longer refers to a valid object. -/
def sharp_probe_err2 (r : Int) (w : World) : Int × World :=
  let w := emit .mutex_destroy w
  let w := emit .kfree { w with dssdev := { w.dssdev with drvdata := none } }
  sharp_probe_err0 r w

/-- Label `err3` of `sharp_probe`. -/
def sharp_probe_err3 (r : Int) (sd : sharp_data) (w : World) : Int × World :=
  let w := emit (.omap_dsi_release_vc sd.channel0) w
  sharp_probe_err2 r w

/-- Label `err4` of `sharp_probe`. -/
def sharp_probe_err4 (r : Int) (sd : sharp_data) (w : World) : Int × World :=
  let w := emit (.omap_dsi_release_vc sd.channel1) w
  sharp_probe_err3 r sd w

def sharp_probe (p : ProbeExtern) (w : World) : Int × World :=
  /- Init Locals -/
  let w := { w with dssdev := { w.dssdev with data := some .sharp_pdata } }
  match get_panel_data w with
  | none => sharp_probe_err0 (-EINVAL) w
  | some .sharp_pdata =>
    let panel_data := w.sharp_pdata
    let w := { w with sharp_panel_timings :=
      { w.sharp_panel_timings with x_res := to_u16 panel_data.x_res } }
    let w := { w with sharp_panel_timings :=
      { w.sharp_panel_timings with y_res := to_u16 panel_data.y_res } }
    let w := { w with dssdev := { w.dssdev with panel_config := OMAP_DSS_LCD_TFT } }
    let w := { w with dssdev := { w.dssdev with panel_timings := w.sharp_panel_timings } }
    let w := { w with dssdev := { w.dssdev with ctrl_pixel_size := 24 } }
    let w := { w with dssdev := { w.dssdev with panel_acbi := 0 } }
    let w := { w with dssdev := { w.dssdev with panel_acb := 40 } }
    let w := emit .kzalloc w
    if ¬ p.kzalloc_ok then sharp_probe_err0 (-ENOMEM) w
    else
      let sd : sharp_data := { channel0 := 0, channel1 := 0 }
      let w := emit .mutex_init w
      let w := emit .dev_set_drvdata (set_sd sd w)
      /- Request virtual channel 0 for video data -/
      let w := emit .omap_dsi_request_vc w
      let sd := { sd with channel0 := p.vc0 }
      let w := set_sd sd w
      let r := p.request_vc0
      if r ≠ 0 then sharp_probe_err2 r w
      else
        let w := emit (.omap_dsi_set_vc_id sd.channel0 0) w
        let r := p.set_vc_id0
        if r ≠ 0 then sharp_probe_err3 r sd w
        else
          /- Request virtual channel 1 for command data -/
          let w := emit .omap_dsi_request_vc w
          let sd := { sd with channel1 := p.vc1 }
          let w := set_sd sd w
          let r := p.request_vc1
          if r ≠ 0 then sharp_probe_err3 r sd w
          else
            let w := emit (.omap_dsi_set_vc_id sd.channel1 0) w
            let r := p.set_vc_id1
            if r ≠ 0 then sharp_probe_err4 r sd w
            else (0, w)

/-! ## Vocabulary of the statements -/

/-- The DSI operations: display enable/disable, high-speed switch, DCS write,
video mode enable/disable. -/
def Event.isDsiOp : Event → Bool
  | .omapdss_dsi_display_enable => true
  | .omapdss_dsi_display_disable _ _ => true
  | .omapdss_dsi_vc_enable_hs _ _ => true
  | .dsi_vc_dcs_write _ _ => true
  | .dsi_video_mode_enable _ => true
  | .dsi_video_mode_disable => true
  | _ => false

/-- Which of the driver mutex and the DSI bus lock are held. -/
structure Locks where
  mutex : Bool
  bus : Bool
deriving DecidableEq, Repr

/-- One event under the locking discipline: the mutex is taken only when free
and released only when held with the bus lock free; the bus lock is taken only
under the mutex when free and released only when held; a DSI operation needs
both. `none` is a violation. -/
def Locks.step (l : Locks) : Event → Option Locks
  | .mutex_lock => if l.mutex then none else some { l with mutex := true }
  | .mutex_unlock => if l.mutex && !l.bus then some { l with mutex := false } else none
  | .dsi_bus_lock => if l.mutex && !l.bus then some { l with bus := true } else none
  | .dsi_bus_unlock => if l.bus then some { l with bus := false } else none
  | e => if e.isDsiOp then (if l.mutex && l.bus then some l else none) else some l

/-- Run a trace under the locking discipline. -/
def Locks.run (l : Locks) : List Event → Option Locks
  | [] => some l
  | e :: es =>
    match l.step e with
    | none => none
    | some l => Locks.run l es

/-- The DCS bytes written to the panel, in order. -/
def dcs_bytes : List Event → List Nat
  | [] => []
  | .dsi_vc_dcs_write _ data :: es => data ++ dcs_bytes es
  | _ :: es => dcs_bytes es

/-- A call of one of the two entry points, with the outcomes of its external
calls. -/
inductive Call where
  | enable (o : Extern)
  | disable (o : Extern)
deriving DecidableEq, Repr

/-- Perform the calls one after the other. -/
def run_calls : List Call → World → Option World
  | [], w => some w
  | .enable o :: cs, w =>
    match sharp_enable o w with
    | none => none
    | some (_, w) => run_calls cs w
  | .disable o :: cs, w =>
    match sharp_disable o w with
    | none => none
    | some w => run_calls cs w

/-- Call `sharp_probe` once per list entry, each time on the listed device and
with the listed outcomes; the statics carry over from one call to the next. -/
def run_probes : List (omap_dss_device × ProbeExtern) → World → World
  | [], w => w
  | (d, p) :: ps, w => run_probes ps (sharp_probe p { w with dssdev := d }).2

/-- The world when the module is loaded, around device `d`: the statics hold
their initialisers and nothing has been called. -/
def boot (d : omap_dss_device) : World :=
  { dssdev := d, sharp_pdata := sharp_pdata_init,
    sharp_panel_timings := sharp_panel_timings_init, trace := [] }

/-- The bytes of one power-on sequence: SLEEP OUT then DISPLAY ON. -/
def power_on_pair : List Nat := [0x11, 0x29]

/-- The bytes of one power-off sequence: DISPLAY OFF then SLEEP IN. -/
def power_off_pair : List Nat := [0x28, 0x10]

/-- The bytes of `n` complete rounds, each a power-on pair followed by a
power-off pair. -/
def rounds : Nat → List Nat
  | 0 => []
  | n + 1 => power_on_pair ++ power_off_pair ++ rounds n

/-- What holds between calls of the entry points: the private data is `sd`, the
state is DISABLED or ACTIVE, and the DCS bytes written so far are some complete
rounds, followed by one more power-on pair exactly when the state is ACTIVE. -/
def panel_inv (sd : sharp_data) (w : World) : Prop :=
  w.dssdev.drvdata = some sd ∧
  (w.dssdev.state = OMAP_DSS_DISPLAY_DISABLED ∨ w.dssdev.state = OMAP_DSS_DISPLAY_ACTIVE) ∧
  ∃ n, dcs_bytes w.trace =
    rounds n ++ (if w.dssdev.state = OMAP_DSS_DISPLAY_ACTIVE then power_on_pair else [])

/-- A device in the given state with valid private data. -/
def sample_dev (s : omap_dss_display_state) (pe pd : Bool) : omap_dss_device :=
  { state := s, first_vsync := true, platform_enable := pe, platform_disable := pd,
    data := some .sharp_pdata, panel_config := OMAP_DSS_LCD_TFT,
    panel_timings := sharp_panel_timings_init, panel_acbi := 0, panel_acb := 40,
    ctrl_pixel_size := 24, drvdata := some { channel0 := 0, channel1 := 1 } }

/-- A world around `sample_dev` with the statics at their initial values and
an empty trace. -/
def sample_world (s : omap_dss_display_state) (pe pd : Bool) : World :=
  { dssdev := sample_dev s pe pd, sharp_pdata := sharp_pdata_init,
    sharp_panel_timings := sharp_panel_timings_init, trace := [] }

/-- A device as the framework hands it to `sharp_probe`: nothing filled in. -/
def fresh_world : World :=
  { dssdev := { state := OMAP_DSS_DISPLAY_DISABLED, first_vsync := false,
                platform_enable := false, platform_disable := false, data := none,
                panel_config := 0,
                panel_timings := { x_res := 0, y_res := 0, pixel_clock := 0, hsw := 0,
                                   hfp := 0, hbp := 0, vsw := 0, vfp := 0, vbp := 0 },
                panel_acbi := 0, panel_acb := 0, ctrl_pixel_size := 0, drvdata := none },
    sharp_pdata := sharp_pdata_init,
    sharp_panel_timings := sharp_panel_timings_init, trace := [] }

/-- External calls that all succeed. -/
def all_ok : Extern :=
  { omapdss_dsi_display_enable := 0, platform_enable := 0, dcs_write_sleep_out := 0,
    dcs_write_display_on := 0, dcs_write_display_off := 0, dcs_write_sleep_in := 0 }

/-- Probe-time external calls that all succeed, handing out channels 0 and 1. -/
def probe_ok : ProbeExtern :=
  { kzalloc_ok := true, request_vc0 := 0, vc0 := 0, set_vc_id0 := 0,
    request_vc1 := 0, vc1 := 1, set_vc_id1 := 0 }

/-- The locking contract of one entry-point call, on the events `t` it makes:
the mutex is taken exactly once, as the first event, and released exactly once,
as the last event; bus lock and bus unlock are equally many; and the whole run
obeys `Locks.step` starting and ending with nothing held (so every bus lock is
released before the mutex is, and every DSI operation has both locks held). -/
def disciplined (t : List Event) : Prop :=
  t.head? = some .mutex_lock ∧ t.count .mutex_lock = 1 ∧
  t.getLast? = some .mutex_unlock ∧ t.count .mutex_unlock = 1 ∧
  t.count .dsi_bus_lock = t.count .dsi_bus_unlock ∧
  Locks.run { mutex := false, bus := false } t = some { mutex := false, bus := false }

instance (t : List Event) : Decidable (disciplined t) := by
  unfold disciplined; infer_instance

/-! ## Power-on and power-off sequences -/

theorem sharp_power_on_stream_eq (o : Extern) (r : Int) (w : World) (sd : sharp_data)
    (h : w.dssdev.drvdata = some sd) :
    sharp_power_on_stream o r w = some (r, { w with trace := w.trace ++
      [.omapdss_dsi_vc_enable_hs sd.channel0 true,
       .omapdss_dsi_vc_enable_hs sd.channel1 true,
       .msleep 100, .dsi_vc_dcs_write sd.channel1 [0x11],
       .msleep 120, .dsi_vc_dcs_write sd.channel1 [0x29],
       .msleep 10, .msleep 10, .dsi_video_mode_enable 0x3E] }) := by
  simp [sharp_power_on_stream, sharp_config, sharp_write_block, dsi_vc_dcs_write,
    dev_get_drvdata, msleep, emit, h, ARRAY_SIZE, sharp_cmd_sleep_out,
    sharp_cmd_display_on, DCS_SLEEP_OUT, DCS_DISPLAY_ON]

/-- The events of a successful `sharp_power_on`, for private data `sd` and a
device whose `platform_enable` hook is present exactly when `pe` holds. -/
theorem sharp_power_on_ok_eq (o : Extern) (w : World) (sd : sharp_data)
    (hsd : w.dssdev.drvdata = some sd)
    (hen : o.omapdss_dsi_display_enable = 0)
    (hpl : w.dssdev.platform_enable = false ∨ o.platform_enable = 0) :
    sharp_power_on o w = some (0,
      { w with
        dssdev := { w.dssdev with first_vsync := false }
        trace := w.trace ++ ([.omapdss_dsi_display_enable] ++
          (if w.dssdev.platform_enable then [.platform_enable] else []) ++
          [.omapdss_dsi_vc_enable_hs sd.channel0 true,
           .omapdss_dsi_vc_enable_hs sd.channel1 true,
           .msleep 100, .dsi_vc_dcs_write sd.channel1 [0x11],
           .msleep 120, .dsi_vc_dcs_write sd.channel1 [0x29],
           .msleep 10, .msleep 10, .dsi_video_mode_enable 0x3E]) }) := by
  cases hpe : w.dssdev.platform_enable with
  | false =>
    simp [sharp_power_on, emit, hen, hpe]
    rw [sharp_power_on_stream_eq o 0 _ sd (by simpa using hsd)]
    simp
  | true =>
    have hp0 : o.platform_enable = 0 := by
      rcases hpl with h | h
      · simp [hpe] at h
      · exact h
    simp [sharp_power_on, emit, hen, hpe, hp0]
    rw [sharp_power_on_stream_eq o 0 _ sd (by simpa using hsd)]
    simp

/-- A failing `omapdss_dsi_display_enable` sends `sharp_power_on` to `err1`. -/
theorem sharp_power_on_err1_eq (o : Extern) (w : World)
    (hen : o.omapdss_dsi_display_enable ≠ 0) :
    sharp_power_on o w = some (o.omapdss_dsi_display_enable,
      { w with
        dssdev := { w.dssdev with first_vsync := false }
        trace := w.trace ++ ([.omapdss_dsi_display_enable] ++
          (if w.dssdev.platform_disable then [.platform_disable] else [])) }) := by
  cases hpd : w.dssdev.platform_disable <;> simp [sharp_power_on, emit, hen, hpd]

/-- A failing `platform_enable` sends `sharp_power_on` to `err0`. -/
theorem sharp_power_on_err0_eq (o : Extern) (w : World)
    (hen : o.omapdss_dsi_display_enable = 0)
    (hpe : w.dssdev.platform_enable = true) (hpl : o.platform_enable ≠ 0) :
    sharp_power_on o w = some (o.platform_enable,
      { w with
        dssdev := { w.dssdev with first_vsync := false }
        trace := w.trace ++ [.omapdss_dsi_display_enable, .platform_enable] }) := by
  simp [sharp_power_on, emit, hen, hpe, hpl]

/-- The events of `sharp_power_off`. -/
theorem sharp_power_off_eq (o : Extern) (w : World) (sd : sharp_data)
    (hsd : w.dssdev.drvdata = some sd) :
    sharp_power_off o w = some
      { w with
        trace := w.trace ++ ([.dsi_vc_dcs_write sd.channel1 [0x28], .msleep 100,
          .dsi_vc_dcs_write sd.channel1 [0x10], .msleep 100,
          .dsi_video_mode_disable, .omapdss_dsi_display_disable false false] ++
          (if w.dssdev.platform_disable then [.platform_disable] else [])) } := by
  cases hpd : w.dssdev.platform_disable <;>
    simp [sharp_power_off, sharp_write_block, dsi_vc_dcs_write, dev_get_drvdata, msleep,
      emit, hsd, hpd, ARRAY_SIZE, sharp_cmd_display_off, sharp_cmd_sleep_in,
      DCS_DISPLAY_OFF, DCS_SLEEP_IN]

/-- C1: when `omapdss_dsi_display_enable` returns 0 and `platform_enable` is absent
or returns 0, then whatever the DCS writes return, `sharp_power_on` returns 0, leaves
`first_vsync` false, and makes exactly these calls in this order: display enable;
`platform_enable` (only when present); high speed on channel0; high speed on
channel1; sleep 100 ms; DCS write of the byte 0x11 on channel1; sleep 120 ms; DCS
write of the byte 0x29 on channel1; sleep 10 ms; sleep 10 ms;
`dsi_video_mode_enable` with 0x3E. -/
theorem sharp_power_on_sequence (o : Extern) (w : World) (sd : sharp_data)
    (hsd : w.dssdev.drvdata = some sd)
    (hen : o.omapdss_dsi_display_enable = 0)
    (hpl : w.dssdev.platform_enable = false ∨ o.platform_enable = 0) :
    ∃ w', sharp_power_on o w = some (0, w') ∧
      w'.dssdev.first_vsync = false ∧
      w'.trace = w.trace ++ ([Event.omapdss_dsi_display_enable] ++
        (if w.dssdev.platform_enable then [Event.platform_enable] else []) ++
        [Event.omapdss_dsi_vc_enable_hs sd.channel0 true,
         Event.omapdss_dsi_vc_enable_hs sd.channel1 true,
         Event.msleep 100,
         Event.dsi_vc_dcs_write sd.channel1 [0x11],
         Event.msleep 120,
         Event.dsi_vc_dcs_write sd.channel1 [0x29],
         Event.msleep 10,
         Event.msleep 10,
         Event.dsi_video_mode_enable 0x3E]) :=
  ⟨_, sharp_power_on_ok_eq o w sd hsd hen hpl, rfl, rfl⟩

/-- C1 at a concrete device: a platform hook that is present and DCS writes that
both fail. -/
theorem sharp_power_on_sequence_witness :
    ∃ w', sharp_power_on { all_ok with dcs_write_sleep_out := -5, dcs_write_display_on := -5 }
        (sample_world OMAP_DSS_DISPLAY_DISABLED true true) = some (0, w') ∧
      w'.dssdev.first_vsync = false ∧
      w'.trace = [] ++ ([Event.omapdss_dsi_display_enable] ++
        (if (sample_world OMAP_DSS_DISPLAY_DISABLED true true).dssdev.platform_enable
          then [Event.platform_enable] else []) ++
        [Event.omapdss_dsi_vc_enable_hs 0 true,
         Event.omapdss_dsi_vc_enable_hs 1 true,
         Event.msleep 100,
         Event.dsi_vc_dcs_write 1 [0x11],
         Event.msleep 120,
         Event.dsi_vc_dcs_write 1 [0x29],
         Event.msleep 10,
         Event.msleep 10,
         Event.dsi_video_mode_enable 0x3E]) :=
  sharp_power_on_sequence { all_ok with dcs_write_sleep_out := -5, dcs_write_display_on := -5 }
    (sample_world OMAP_DSS_DISPLAY_DISABLED true true) { channel0 := 0, channel1 := 1 }
    rfl rfl (Or.inr rfl)

/-- C2: whatever the DCS writes return, `sharp_power_off` makes exactly these calls
in this order: DCS write of the byte 0x28 on channel1; sleep 100 ms; DCS write of
the byte 0x10 on channel1; sleep 100 ms; `dsi_video_mode_disable`;
`omapdss_dsi_display_disable(false, false)`; `platform_disable` (only when
present). -/
theorem sharp_power_off_sequence (o : Extern) (w : World) (sd : sharp_data)
    (hsd : w.dssdev.drvdata = some sd) :
    ∃ w', sharp_power_off o w = some w' ∧
      w'.trace = w.trace ++ ([Event.dsi_vc_dcs_write sd.channel1 [0x28],
        Event.msleep 100,
        Event.dsi_vc_dcs_write sd.channel1 [0x10],
        Event.msleep 100,
        Event.dsi_video_mode_disable,
        Event.omapdss_dsi_display_disable false false] ++
        (if w.dssdev.platform_disable then [Event.platform_disable] else [])) :=
  ⟨_, sharp_power_off_eq o w sd hsd, rfl⟩

/-- C2 at a concrete device whose `platform_disable` hook is present and whose DCS
writes fail. -/
theorem sharp_power_off_sequence_witness :
    ∃ w', sharp_power_off { all_ok with dcs_write_display_off := -5, dcs_write_sleep_in := -5 }
        (sample_world OMAP_DSS_DISPLAY_ACTIVE true true) = some w' ∧
      w'.trace = [] ++ ([Event.dsi_vc_dcs_write 1 [0x28],
        Event.msleep 100,
        Event.dsi_vc_dcs_write 1 [0x10],
        Event.msleep 100,
        Event.dsi_video_mode_disable,
        Event.omapdss_dsi_display_disable false false] ++
        (if (sample_world OMAP_DSS_DISPLAY_ACTIVE true true).dssdev.platform_disable
          then [Event.platform_disable] else [])) :=
  sharp_power_off_sequence { all_ok with dcs_write_display_off := -5, dcs_write_sleep_in := -5 }
    (sample_world OMAP_DSS_DISPLAY_ACTIVE true true) { channel0 := 0, channel1 := 1 } rfl

/-! ## Enable and disable -/

theorem sharp_enable_busy_eq (o : Extern) (w : World) (sd : sharp_data)
    (hsd : w.dssdev.drvdata = some sd)
    (hst : w.dssdev.state ≠ OMAP_DSS_DISPLAY_DISABLED) :
    sharp_enable o w = some (-EINVAL,
      { w with trace := w.trace ++ [.mutex_lock, .mutex_unlock] }) := by
  simp [sharp_enable, dev_get_drvdata, emit, hsd, hst]

theorem sharp_enable_ok_eq (o : Extern) (w : World) (sd : sharp_data)
    (hsd : w.dssdev.drvdata = some sd)
    (hst : w.dssdev.state = OMAP_DSS_DISPLAY_DISABLED)
    (hen : o.omapdss_dsi_display_enable = 0)
    (hpl : w.dssdev.platform_enable = false ∨ o.platform_enable = 0) :
    sharp_enable o w = some (0,
      { w with
        dssdev := { w.dssdev with first_vsync := false, state := OMAP_DSS_DISPLAY_ACTIVE }
        trace := w.trace ++ ([.mutex_lock, .dsi_bus_lock, .omapdss_dsi_display_enable] ++
          (if w.dssdev.platform_enable then [.platform_enable] else []) ++
          [.omapdss_dsi_vc_enable_hs sd.channel0 true,
           .omapdss_dsi_vc_enable_hs sd.channel1 true,
           .msleep 100, .dsi_vc_dcs_write sd.channel1 [0x11],
           .msleep 120, .dsi_vc_dcs_write sd.channel1 [0x29],
           .msleep 10, .msleep 10, .dsi_video_mode_enable 0x3E,
           .dsi_bus_unlock, .mutex_unlock]) }) := by
  simp only [sharp_enable, dev_get_drvdata, hsd]
  rw [sharp_power_on_ok_eq o (emit .dsi_bus_lock (emit .mutex_lock w)) sd hsd hen hpl]
  simp [emit, set_state, hst, hsd]

theorem sharp_enable_err1_eq (o : Extern) (w : World) (sd : sharp_data)
    (hsd : w.dssdev.drvdata = some sd)
    (hst : w.dssdev.state = OMAP_DSS_DISPLAY_DISABLED)
    (hen : o.omapdss_dsi_display_enable ≠ 0) :
    sharp_enable o w = some (o.omapdss_dsi_display_enable,
      { w with
        dssdev := { w.dssdev with first_vsync := false, state := OMAP_DSS_DISPLAY_DISABLED }
        trace := w.trace ++ ([.mutex_lock, .dsi_bus_lock, .omapdss_dsi_display_enable] ++
          (if w.dssdev.platform_disable then [.platform_disable] else []) ++
          [.dsi_bus_unlock, .mutex_unlock]) }) := by
  simp only [sharp_enable, dev_get_drvdata, hsd]
  rw [sharp_power_on_err1_eq o (emit .dsi_bus_lock (emit .mutex_lock w)) hen]
  simp [emit, set_state, hst, hen, hsd]

theorem sharp_enable_err0_eq (o : Extern) (w : World) (sd : sharp_data)
    (hsd : w.dssdev.drvdata = some sd)
    (hst : w.dssdev.state = OMAP_DSS_DISPLAY_DISABLED)
    (hen : o.omapdss_dsi_display_enable = 0)
    (hpe : w.dssdev.platform_enable = true) (hpl : o.platform_enable ≠ 0) :
    sharp_enable o w = some (o.platform_enable,
      { w with
        dssdev := { w.dssdev with first_vsync := false, state := OMAP_DSS_DISPLAY_DISABLED }
        trace := w.trace ++ [.mutex_lock, .dsi_bus_lock, .omapdss_dsi_display_enable,
          .platform_enable, .dsi_bus_unlock, .mutex_unlock] }) := by
  simp only [sharp_enable, dev_get_drvdata, hsd]
  rw [sharp_power_on_err0_eq o (emit .dsi_bus_lock (emit .mutex_lock w)) hen hpe hpl]
  simp [emit, set_state, hst, hpl, hsd]

theorem sharp_disable_active_eq (o : Extern) (w : World) (sd : sharp_data)
    (hsd : w.dssdev.drvdata = some sd)
    (hst : w.dssdev.state = OMAP_DSS_DISPLAY_ACTIVE) :
    sharp_disable o w = some
      { w with
        dssdev := { w.dssdev with state := OMAP_DSS_DISPLAY_DISABLED }
        trace := w.trace ++ ([.mutex_lock, .dsi_bus_lock,
          .dsi_vc_dcs_write sd.channel1 [0x28], .msleep 100,
          .dsi_vc_dcs_write sd.channel1 [0x10], .msleep 100,
          .dsi_video_mode_disable, .omapdss_dsi_display_disable false false] ++
          (if w.dssdev.platform_disable then [.platform_disable] else []) ++
          [.dsi_bus_unlock, .mutex_unlock]) } := by
  simp only [sharp_disable, dev_get_drvdata, hsd]
  rw [sharp_power_off_eq o (emit .dsi_bus_lock (emit .mutex_lock w)) sd hsd]
  simp [emit, set_state, hst, hsd]

theorem sharp_disable_idle_eq (o : Extern) (w : World) (sd : sharp_data)
    (hsd : w.dssdev.drvdata = some sd)
    (hst : w.dssdev.state ≠ OMAP_DSS_DISPLAY_ACTIVE) :
    sharp_disable o w = some
      { w with
        dssdev := { w.dssdev with state := OMAP_DSS_DISPLAY_DISABLED }
        trace := w.trace ++ [.mutex_lock, .mutex_unlock] } := by
  simp [sharp_disable, dev_get_drvdata, emit, set_state, hsd, hst]

/-- C3: every call of `sharp_enable` and of `sharp_disable`, on every return path,
takes the driver mutex exactly once as its first event and releases it exactly once
as its last event, pairs every `dsi_bus_lock` with a `dsi_bus_unlock` before the
mutex is released, and makes every DSI operation with both locks held. -/
theorem sharp_enable_disable_locking (o : Extern) (w : World) (sd : sharp_data)
    (hsd : w.dssdev.drvdata = some sd) :
    (∃ r w' t, sharp_enable o w = some (r, w') ∧ w'.trace = w.trace ++ t ∧ disciplined t) ∧
    (∃ w' t, sharp_disable o w = some w' ∧ w'.trace = w.trace ++ t ∧ disciplined t) := by
  constructor
  · by_cases hst : w.dssdev.state = OMAP_DSS_DISPLAY_DISABLED
    · by_cases hen : o.omapdss_dsi_display_enable = 0
      · by_cases hpl : w.dssdev.platform_enable = false ∨ o.platform_enable = 0
        · refine ⟨_, _, _, sharp_enable_ok_eq o w sd hsd hst hen hpl, rfl, ?_⟩
          cases w.dssdev.platform_enable <;>
            simp [disciplined, Locks.run, Locks.step, Event.isDsiOp]
        · have hpe : w.dssdev.platform_enable = true := by
            cases h : w.dssdev.platform_enable
            · exact absurd (Or.inl h) hpl
            · rfl
          have hp : o.platform_enable ≠ 0 := fun h => hpl (Or.inr h)
          refine ⟨_, _, _, sharp_enable_err0_eq o w sd hsd hst hen hpe hp, rfl, ?_⟩
          simp [disciplined, Locks.run, Locks.step, Event.isDsiOp]
      · refine ⟨_, _, _, sharp_enable_err1_eq o w sd hsd hst hen, rfl, ?_⟩
        cases w.dssdev.platform_disable <;>
          simp [disciplined, Locks.run, Locks.step, Event.isDsiOp]
    · refine ⟨_, _, _, sharp_enable_busy_eq o w sd hsd hst, rfl, ?_⟩
      simp [disciplined, Locks.run, Locks.step, Event.isDsiOp]
  · by_cases hst : w.dssdev.state = OMAP_DSS_DISPLAY_ACTIVE
    · refine ⟨_, _, sharp_disable_active_eq o w sd hsd hst, rfl, ?_⟩
      cases w.dssdev.platform_disable <;>
        simp [disciplined, Locks.run, Locks.step, Event.isDsiOp]
    · refine ⟨_, _, sharp_disable_idle_eq o w sd hsd hst, rfl, ?_⟩
      simp [disciplined, Locks.run, Locks.step, Event.isDsiOp]

/-- C3 at a concrete device: an active panel with both platform hooks present. -/
theorem sharp_enable_disable_locking_witness :
    (∃ r w' t, sharp_enable all_ok (sample_world OMAP_DSS_DISPLAY_ACTIVE true true) = some (r, w') ∧
      w'.trace = (sample_world OMAP_DSS_DISPLAY_ACTIVE true true).trace ++ t ∧ disciplined t) ∧
    (∃ w' t, sharp_disable all_ok (sample_world OMAP_DSS_DISPLAY_ACTIVE true true) = some w' ∧
      w'.trace = (sample_world OMAP_DSS_DISPLAY_ACTIVE true true).trace ++ t ∧ disciplined t) :=
  sharp_enable_disable_locking all_ok (sample_world OMAP_DSS_DISPLAY_ACTIVE true true)
    { channel0 := 0, channel1 := 1 } rfl

/-- The locking contract is not vacuous: a DSI operation made without the bus
lock, and a mutex released while the bus lock is held, are both rejected. -/
theorem disciplined_rejects :
    ¬ disciplined [.mutex_lock, .omapdss_dsi_display_enable, .mutex_unlock] ∧
    ¬ disciplined [.mutex_lock, .dsi_bus_lock, .mutex_unlock, .dsi_bus_unlock] := by
  constructor <;> decide

/-- C4: `sharp_enable` returns 0 and leaves the state ACTIVE exactly when the state
at entry was DISABLED and its call of `sharp_power_on` (made under the mutex and the
bus lock) returned 0; in every other case it returns a non-zero error and the state
at exit equals the state at entry. When the state at entry is not DISABLED it
returns `-EINVAL` and its only calls are `mutex_lock` and `mutex_unlock`: no bus
lock, no DSI operation, no delay. -/
theorem sharp_enable_result (o : Extern) (w : World) (sd : sharp_data)
    (hsd : w.dssdev.drvdata = some sd) :
    ∃ r w', sharp_enable o w = some (r, w') ∧
      ((r = 0 ∧ w'.dssdev.state = OMAP_DSS_DISPLAY_ACTIVE) ↔
        (w.dssdev.state = OMAP_DSS_DISPLAY_DISABLED ∧
          ∃ wp, sharp_power_on o (emit .dsi_bus_lock (emit .mutex_lock w)) = some (0, wp))) ∧
      (¬ (r = 0 ∧ w'.dssdev.state = OMAP_DSS_DISPLAY_ACTIVE) →
        r ≠ 0 ∧ w'.dssdev.state = w.dssdev.state) ∧
      (w.dssdev.state ≠ OMAP_DSS_DISPLAY_DISABLED →
        r = -EINVAL ∧ w'.trace = w.trace ++ [Event.mutex_lock, Event.mutex_unlock]) := by
  by_cases hst : w.dssdev.state = OMAP_DSS_DISPLAY_DISABLED
  · by_cases hen : o.omapdss_dsi_display_enable = 0
    · by_cases hpl : w.dssdev.platform_enable = false ∨ o.platform_enable = 0
      · refine ⟨_, _, sharp_enable_ok_eq o w sd hsd hst hen hpl, ?_, ?_, ?_⟩
        · exact ⟨fun _ => ⟨hst, _, sharp_power_on_ok_eq o
            (emit .dsi_bus_lock (emit .mutex_lock w)) sd hsd hen hpl⟩, fun _ => ⟨rfl, rfl⟩⟩
        · intro h; exact absurd ⟨rfl, rfl⟩ h
        · intro h; exact absurd hst h
      · have hpe : w.dssdev.platform_enable = true := by
          cases h : w.dssdev.platform_enable
          · exact absurd (Or.inl h) hpl
          · rfl
        have hp : o.platform_enable ≠ 0 := fun h => hpl (Or.inr h)
        refine ⟨_, _, sharp_enable_err0_eq o w sd hsd hst hen hpe hp, ?_, ?_, ?_⟩
        · constructor
          · intro h; exact absurd h.1 hp
          · rintro ⟨_, wp, h⟩
            rw [sharp_power_on_err0_eq o (emit .dsi_bus_lock (emit .mutex_lock w)) hen hpe hp] at h
            simp at h
            exact absurd h.1 hp
        · intro _; exact ⟨hp, hst.symm⟩
        · intro h; exact absurd hst h
    · refine ⟨_, _, sharp_enable_err1_eq o w sd hsd hst hen, ?_, ?_, ?_⟩
      · constructor
        · intro h; exact absurd h.1 hen
        · rintro ⟨_, wp, h⟩
          rw [sharp_power_on_err1_eq o (emit .dsi_bus_lock (emit .mutex_lock w)) hen] at h
          simp at h
          exact absurd h.1 hen
      · intro _; exact ⟨hen, hst.symm⟩
      · intro h; exact absurd hst h
  · refine ⟨_, _, sharp_enable_busy_eq o w sd hsd hst, ?_, ?_, ?_⟩
    · constructor
      · intro h; simp [EINVAL] at h
      · intro h; exact absurd h.1 hst
    · intro _; exact ⟨by simp [EINVAL], rfl⟩
    · intro _; exact ⟨rfl, rfl⟩

/-- C4 at a concrete device: a disabled panel whose external calls all succeed. -/
theorem sharp_enable_result_witness :
    ∃ r w', sharp_enable all_ok (sample_world OMAP_DSS_DISPLAY_DISABLED true true) = some (r, w') ∧
      ((r = 0 ∧ w'.dssdev.state = OMAP_DSS_DISPLAY_ACTIVE) ↔
        ((sample_world OMAP_DSS_DISPLAY_DISABLED true true).dssdev.state =
            OMAP_DSS_DISPLAY_DISABLED ∧
          ∃ wp, sharp_power_on all_ok (emit .dsi_bus_lock (emit .mutex_lock
            (sample_world OMAP_DSS_DISPLAY_DISABLED true true))) = some (0, wp))) ∧
      (¬ (r = 0 ∧ w'.dssdev.state = OMAP_DSS_DISPLAY_ACTIVE) →
        r ≠ 0 ∧ w'.dssdev.state = (sample_world OMAP_DSS_DISPLAY_DISABLED true true).dssdev.state) ∧
      ((sample_world OMAP_DSS_DISPLAY_DISABLED true true).dssdev.state ≠
          OMAP_DSS_DISPLAY_DISABLED →
        r = -EINVAL ∧ w'.trace = (sample_world OMAP_DSS_DISPLAY_DISABLED true true).trace ++
          [Event.mutex_lock, Event.mutex_unlock]) :=
  sharp_enable_result all_ok (sample_world OMAP_DSS_DISPLAY_DISABLED true true)
    { channel0 := 0, channel1 := 1 } rfl

/-- C5: whatever the state at entry, `sharp_disable` leaves the state DISABLED. When
the state at entry is ACTIVE its calls are the power-off sequence under the bus lock
and the mutex; otherwise its only calls are `mutex_lock` and `mutex_unlock`, so no
DSI operation is issued. A second call right after the first (with any outcomes
`o2`) makes only `mutex_lock` and `mutex_unlock` and leaves the state DISABLED. -/
theorem sharp_disable_effect (o o2 : Extern) (w : World) (sd : sharp_data)
    (hsd : w.dssdev.drvdata = some sd) :
    ∃ w' t, sharp_disable o w = some w' ∧ w'.trace = w.trace ++ t ∧
      w'.dssdev.state = OMAP_DSS_DISPLAY_DISABLED ∧
      (w.dssdev.state = OMAP_DSS_DISPLAY_ACTIVE ↔
        ∃ wp, sharp_power_off o (emit .dsi_bus_lock (emit .mutex_lock w)) = some wp ∧
          w'.trace = wp.trace ++ [Event.dsi_bus_unlock, Event.mutex_unlock]) ∧
      (w.dssdev.state = OMAP_DSS_DISPLAY_ACTIVE →
        t = [Event.mutex_lock, Event.dsi_bus_lock,
          Event.dsi_vc_dcs_write sd.channel1 [0x28], Event.msleep 100,
          Event.dsi_vc_dcs_write sd.channel1 [0x10], Event.msleep 100,
          Event.dsi_video_mode_disable, Event.omapdss_dsi_display_disable false false] ++
          (if w.dssdev.platform_disable then [Event.platform_disable] else []) ++
          [Event.dsi_bus_unlock, Event.mutex_unlock]) ∧
      (w.dssdev.state ≠ OMAP_DSS_DISPLAY_ACTIVE →
        t = [Event.mutex_lock, Event.mutex_unlock] ∧ ∀ e ∈ t, e.isDsiOp = false) ∧
      ∃ w2, sharp_disable o2 w' = some w2 ∧
        w2.trace = w'.trace ++ [Event.mutex_lock, Event.mutex_unlock] ∧
        w2.dssdev.state = OMAP_DSS_DISPLAY_DISABLED := by
  by_cases hst : w.dssdev.state = OMAP_DSS_DISPLAY_ACTIVE
  · refine ⟨_, _, sharp_disable_active_eq o w sd hsd hst, rfl, rfl, ?_, ?_, ?_, ?_⟩
    · refine ⟨fun _ => ⟨_, sharp_power_off_eq o (emit .dsi_bus_lock (emit .mutex_lock w)) sd hsd,
        ?_⟩, fun _ => hst⟩
      simp [emit]
    · intro _; rfl
    · intro h; exact absurd hst h
    · exact ⟨_, sharp_disable_idle_eq o2 _ sd hsd (by simp), rfl, rfl⟩
  · refine ⟨_, _, sharp_disable_idle_eq o w sd hsd hst, rfl, rfl, ?_, ?_, ?_, ?_⟩
    · constructor
      · intro h; exact absurd h hst
      · rintro ⟨wp, h, ht⟩
        rw [sharp_power_off_eq o (emit .dsi_bus_lock (emit .mutex_lock w)) sd hsd] at h
        cases h
        cases hpd : w.dssdev.platform_disable <;> simp [emit, hpd] at ht
    · intro h; exact absurd h hst
    · intro _; exact ⟨rfl, by simp [Event.isDsiOp]⟩
    · exact ⟨_, sharp_disable_idle_eq o2 _ sd hsd (by simp), rfl, rfl⟩

/-- C5 at a concrete device: an active panel with the `platform_disable` hook. -/
theorem sharp_disable_effect_witness :
    ∃ w' t, sharp_disable all_ok (sample_world OMAP_DSS_DISPLAY_ACTIVE true true) = some w' ∧
      w'.trace = (sample_world OMAP_DSS_DISPLAY_ACTIVE true true).trace ++ t ∧
      w'.dssdev.state = OMAP_DSS_DISPLAY_DISABLED ∧
      ((sample_world OMAP_DSS_DISPLAY_ACTIVE true true).dssdev.state = OMAP_DSS_DISPLAY_ACTIVE ↔
        ∃ wp, sharp_power_off all_ok (emit .dsi_bus_lock (emit .mutex_lock
            (sample_world OMAP_DSS_DISPLAY_ACTIVE true true))) = some wp ∧
          w'.trace = wp.trace ++ [Event.dsi_bus_unlock, Event.mutex_unlock]) ∧
      ((sample_world OMAP_DSS_DISPLAY_ACTIVE true true).dssdev.state = OMAP_DSS_DISPLAY_ACTIVE →
        t = [Event.mutex_lock, Event.dsi_bus_lock,
          Event.dsi_vc_dcs_write 1 [0x28], Event.msleep 100,
          Event.dsi_vc_dcs_write 1 [0x10], Event.msleep 100,
          Event.dsi_video_mode_disable, Event.omapdss_dsi_display_disable false false] ++
          (if (sample_world OMAP_DSS_DISPLAY_ACTIVE true true).dssdev.platform_disable
            then [Event.platform_disable] else []) ++
          [Event.dsi_bus_unlock, Event.mutex_unlock]) ∧
      ((sample_world OMAP_DSS_DISPLAY_ACTIVE true true).dssdev.state ≠ OMAP_DSS_DISPLAY_ACTIVE →
        t = [Event.mutex_lock, Event.mutex_unlock] ∧ ∀ e ∈ t, e.isDsiOp = false) ∧
      ∃ w2, sharp_disable all_ok w' = some w2 ∧
        w2.trace = w'.trace ++ [Event.mutex_lock, Event.mutex_unlock] ∧
        w2.dssdev.state = OMAP_DSS_DISPLAY_DISABLED :=
  sharp_disable_effect all_ok all_ok (sample_world OMAP_DSS_DISPLAY_ACTIVE true true)
    { channel0 := 0, channel1 := 1 } rfl

/-! ## Probe, resolution and timings -/

theorem to_u16_800 : to_u16 800 = 800 := by decide

theorem to_u16_1280 : to_u16 1280 = 1280 := by decide

/-- Every return path of `sharp_probe` leaves both statics at their initial values and copies the
panel timings into the device. -/
theorem sharp_probe_statics (p : ProbeExtern) (w : World)
    (hp : w.sharp_pdata = sharp_pdata_init)
    (ht : w.sharp_panel_timings = sharp_panel_timings_init) :
    (sharp_probe p w).2.sharp_pdata = sharp_pdata_init ∧
    (sharp_probe p w).2.sharp_panel_timings = sharp_panel_timings_init ∧
    (sharp_probe p w).2.dssdev.panel_timings = sharp_panel_timings_init := by
  have hx : to_u16 sharp_pdata_init.x_res = 800 := to_u16_800
  have hy : to_u16 sharp_pdata_init.y_res = 1280 := to_u16_1280
  have hT : ({ sharp_panel_timings_init with x_res := 800, y_res := 1280 } :
      omap_video_timings) = sharp_panel_timings_init := rfl
  simp only [sharp_probe, get_panel_data, hp, ht, hx, hy, hT]
  split_ifs <;>
    simp [sharp_probe_err0, sharp_probe_err2, sharp_probe_err3, sharp_probe_err4, emit, set_sd,
      hp, hT]

/-- Any number of probes from module load leaves the statics at their initial
values. -/
theorem run_probes_statics (calls : List (omap_dss_device × ProbeExtern)) (w : World)
    (hp : w.sharp_pdata = sharp_pdata_init)
    (ht : w.sharp_panel_timings = sharp_panel_timings_init) :
    (run_probes calls w).sharp_pdata = sharp_pdata_init ∧
    (run_probes calls w).sharp_panel_timings = sharp_panel_timings_init := by
  induction calls generalizing w with
  | nil => exact ⟨hp, ht⟩
  | cons c cs ih =>
    obtain ⟨d, p⟩ := c
    have h := sharp_probe_statics p { w with dssdev := d } hp ht
    exact ih _ h.1 h.2.1

/-- C6: from module load, before and after any calls of `sharp_probe` (on any
devices, with any outcomes) `sharp_get_resolution` yields x = 800 and y = 1280, and
immediately after a call of `sharp_probe` the timings that `sharp_get_timings`
returns for the probed device are x_res 800, y_res 1280, hsw 64, hfp 64, hbp 64,
vsw 1, vfp 6, vbp 12. -/
theorem sharp_resolution_and_timings_static (calls : List (omap_dss_device × ProbeExtern))
    (d0 d : omap_dss_device) (p : ProbeExtern) :
    sharp_get_resolution (run_probes calls (boot d0)) = (800, 1280) ∧
    sharp_get_resolution (sharp_probe p { run_probes calls (boot d0) with dssdev := d }).2
      = (800, 1280) ∧
    (sharp_get_timings (sharp_probe p { run_probes calls (boot d0) with dssdev := d }).2).x_res
      = 800 ∧
    (sharp_get_timings (sharp_probe p { run_probes calls (boot d0) with dssdev := d }).2).y_res
      = 1280 ∧
    (sharp_get_timings (sharp_probe p { run_probes calls (boot d0) with dssdev := d }).2).hsw
      = 64 ∧
    (sharp_get_timings (sharp_probe p { run_probes calls (boot d0) with dssdev := d }).2).hfp
      = 64 ∧
    (sharp_get_timings (sharp_probe p { run_probes calls (boot d0) with dssdev := d }).2).hbp
      = 64 ∧
    (sharp_get_timings (sharp_probe p { run_probes calls (boot d0) with dssdev := d }).2).vsw
      = 1 ∧
    (sharp_get_timings (sharp_probe p { run_probes calls (boot d0) with dssdev := d }).2).vfp
      = 6 ∧
    (sharp_get_timings (sharp_probe p { run_probes calls (boot d0) with dssdev := d }).2).vbp
      = 12 := by
  have h0 := run_probes_statics calls (boot d0) rfl rfl
  have h1 := sharp_probe_statics p { run_probes calls (boot d0) with dssdev := d } h0.1 h0.2
  refine ⟨?_, ?_, ?_, ?_, ?_, ?_, ?_, ?_, ?_, ?_⟩
  · simp [sharp_get_resolution, h0.2, sharp_panel_timings_init]
  · simp [sharp_get_resolution, h1.2.1, sharp_panel_timings_init]
  all_goals simp [sharp_get_timings, h1.2.2, sharp_panel_timings_init]

/-- C7: at any time after module load (after any calls of `sharp_probe`),
`sharp_check_timings` returns 0 exactly when the candidate's x_res, y_res,
pixel_clock, hsw, hfp, hbp, vsw, vfp and vbp are 800, 1280, 0, 64, 64, 64, 1, 6 and
12, and returns `-EINVAL` otherwise; the timings `sharp_get_timings` reports right
after `sharp_probe` are accepted. -/
theorem sharp_check_timings_iff (calls : List (omap_dss_device × ProbeExtern))
    (d0 d : omap_dss_device) (p : ProbeExtern) (timings : omap_video_timings) :
    (sharp_check_timings (run_probes calls (boot d0)) timings = 0 ↔
      timings.x_res = 800 ∧ timings.y_res = 1280 ∧ timings.pixel_clock = 0 ∧
      timings.hsw = 64 ∧ timings.hfp = 64 ∧ timings.hbp = 64 ∧
      timings.vsw = 1 ∧ timings.vfp = 6 ∧ timings.vbp = 12) ∧
    (sharp_check_timings (run_probes calls (boot d0)) timings ≠ 0 →
      sharp_check_timings (run_probes calls (boot d0)) timings = -EINVAL) ∧
    sharp_check_timings (sharp_probe p { run_probes calls (boot d0) with dssdev := d }).2
      (sharp_get_timings (sharp_probe p { run_probes calls (boot d0) with dssdev := d }).2)
      = 0 := by
  have h0 := run_probes_statics calls (boot d0) rfl rfl
  have h1 := sharp_probe_statics p { run_probes calls (boot d0) with dssdev := d } h0.1 h0.2
  refine ⟨?_, ?_, ?_⟩
  · simp only [sharp_check_timings, h0.2, sharp_panel_timings_init]
    constructor
    · intro h
      by_contra hne
      rw [if_pos (by
        by_contra hall
        push_neg at hall
        exact hne ⟨hall.1.symm, hall.2.1.symm, hall.2.2.1.symm, hall.2.2.2.1.symm,
          hall.2.2.2.2.1.symm, hall.2.2.2.2.2.1.symm, hall.2.2.2.2.2.2.1.symm,
          hall.2.2.2.2.2.2.2.1.symm, hall.2.2.2.2.2.2.2.2.symm⟩)] at h
      simp [EINVAL] at h
    · rintro ⟨a, b, c, e, f, g, i, j, k⟩
      simp [a, b, c, e, f, g, i, j, k]
  · intro h
    simp only [sharp_check_timings] at h ⊢
    split_ifs at h ⊢
    · rfl
    · exact absurd rfl h
  · simp [sharp_check_timings, sharp_get_timings, h1.2.1, h1.2.2]

/-- C9: `sharp_probe` returns 0 exactly when the allocation and the four DSI calls
all succeed. Otherwise it returns the error of the first failing step (`-ENOMEM`
for the allocation) and makes no later step; on its way out it releases, once each,
exactly the channels whose request succeeded (channel1 before channel0), destroys
the mutex and frees the private data. The allocation is always reached and
`dssdev->data` is set, so the "no platform data" branch is never taken. -/
theorem sharp_probe_result (p : ProbeExtern) (w : World) :
    ∃ t, (sharp_probe p w).2.trace = w.trace ++ t ∧
      ((sharp_probe p w).1 = 0 ↔
        p.kzalloc_ok = true ∧ p.request_vc0 = 0 ∧ p.set_vc_id0 = 0 ∧
        p.request_vc1 = 0 ∧ p.set_vc_id1 = 0) ∧
      t.head? = some Event.kzalloc ∧
      (sharp_probe p w).2.dssdev.data = some panel_data_ptr.sharp_pdata ∧
      (p.kzalloc_ok = false →
        (sharp_probe p w).1 = -ENOMEM ∧ t = [Event.kzalloc]) ∧
      (p.kzalloc_ok = true → p.request_vc0 ≠ 0 →
        (sharp_probe p w).1 = p.request_vc0 ∧
        t = [Event.kzalloc, Event.mutex_init, Event.dev_set_drvdata,
          Event.omap_dsi_request_vc,
          Event.mutex_destroy, Event.kfree]) ∧
      (p.kzalloc_ok = true → p.request_vc0 = 0 → p.set_vc_id0 ≠ 0 →
        (sharp_probe p w).1 = p.set_vc_id0 ∧
        t = [Event.kzalloc, Event.mutex_init, Event.dev_set_drvdata,
          Event.omap_dsi_request_vc, Event.omap_dsi_set_vc_id p.vc0 0,
          Event.omap_dsi_release_vc p.vc0,
          Event.mutex_destroy, Event.kfree]) ∧
      (p.kzalloc_ok = true → p.request_vc0 = 0 → p.set_vc_id0 = 0 → p.request_vc1 ≠ 0 →
        (sharp_probe p w).1 = p.request_vc1 ∧
        t = [Event.kzalloc, Event.mutex_init, Event.dev_set_drvdata,
          Event.omap_dsi_request_vc, Event.omap_dsi_set_vc_id p.vc0 0,
          Event.omap_dsi_request_vc,
          Event.omap_dsi_release_vc p.vc0,
          Event.mutex_destroy, Event.kfree]) ∧
      (p.kzalloc_ok = true → p.request_vc0 = 0 → p.set_vc_id0 = 0 → p.request_vc1 = 0 →
          p.set_vc_id1 ≠ 0 →
        (sharp_probe p w).1 = p.set_vc_id1 ∧
        t = [Event.kzalloc, Event.mutex_init, Event.dev_set_drvdata,
          Event.omap_dsi_request_vc, Event.omap_dsi_set_vc_id p.vc0 0,
          Event.omap_dsi_request_vc, Event.omap_dsi_set_vc_id p.vc1 0,
          Event.omap_dsi_release_vc p.vc1, Event.omap_dsi_release_vc p.vc0,
          Event.mutex_destroy, Event.kfree]) ∧
      (p.kzalloc_ok = true → p.request_vc0 = 0 → p.set_vc_id0 = 0 → p.request_vc1 = 0 →
          p.set_vc_id1 = 0 →
        t = [Event.kzalloc, Event.mutex_init, Event.dev_set_drvdata,
          Event.omap_dsi_request_vc, Event.omap_dsi_set_vc_id p.vc0 0,
          Event.omap_dsi_request_vc, Event.omap_dsi_set_vc_id p.vc1 0]) := by
  cases hk : p.kzalloc_ok with
  | false =>
    refine ⟨[Event.kzalloc], ?_⟩
    simp [sharp_probe, get_panel_data, sharp_probe_err0, emit, hk, ENOMEM]
  | true =>
    by_cases h0 : p.request_vc0 = 0
    · by_cases h1 : p.set_vc_id0 = 0
      · by_cases h2 : p.request_vc1 = 0
        · by_cases h3 : p.set_vc_id1 = 0
          · refine ⟨[Event.kzalloc, Event.mutex_init, Event.dev_set_drvdata,
              Event.omap_dsi_request_vc, Event.omap_dsi_set_vc_id p.vc0 0,
              Event.omap_dsi_request_vc, Event.omap_dsi_set_vc_id p.vc1 0], ?_⟩
            simp [sharp_probe, get_panel_data, emit, set_sd, hk, h0, h1, h2, h3]
          · refine ⟨[Event.kzalloc, Event.mutex_init, Event.dev_set_drvdata,
              Event.omap_dsi_request_vc, Event.omap_dsi_set_vc_id p.vc0 0,
              Event.omap_dsi_request_vc, Event.omap_dsi_set_vc_id p.vc1 0,
              Event.omap_dsi_release_vc p.vc1, Event.omap_dsi_release_vc p.vc0,
              Event.mutex_destroy, Event.kfree], ?_⟩
            simp [sharp_probe, get_panel_data, sharp_probe_err0, sharp_probe_err2,
              sharp_probe_err3, sharp_probe_err4, emit, set_sd, hk, h0, h1, h2, h3]
        · refine ⟨[Event.kzalloc, Event.mutex_init, Event.dev_set_drvdata,
            Event.omap_dsi_request_vc, Event.omap_dsi_set_vc_id p.vc0 0,
            Event.omap_dsi_request_vc,
            Event.omap_dsi_release_vc p.vc0,
            Event.mutex_destroy, Event.kfree], ?_⟩
          simp [sharp_probe, get_panel_data, sharp_probe_err0, sharp_probe_err2,
            sharp_probe_err3, emit, set_sd, hk, h0, h1, h2]
      · refine ⟨[Event.kzalloc, Event.mutex_init, Event.dev_set_drvdata,
          Event.omap_dsi_request_vc, Event.omap_dsi_set_vc_id p.vc0 0,
          Event.omap_dsi_release_vc p.vc0,
          Event.mutex_destroy, Event.kfree], ?_⟩
        simp [sharp_probe, get_panel_data, sharp_probe_err0, sharp_probe_err2,
          sharp_probe_err3, emit, set_sd, hk, h0, h1]
    · refine ⟨[Event.kzalloc, Event.mutex_init, Event.dev_set_drvdata,
        Event.omap_dsi_request_vc,
        Event.mutex_destroy, Event.kfree], ?_⟩
      simp [sharp_probe, get_panel_data, sharp_probe_err0, sharp_probe_err2, emit, set_sd,
        hk, h0]

/-- C9 at a concrete probe: both requests succeed and the last `set_vc_id` fails. -/
theorem sharp_probe_result_witness :
    ∃ t, (sharp_probe { probe_ok with set_vc_id1 := -5 } fresh_world).2.trace
        = fresh_world.trace ++ t ∧
      (sharp_probe { probe_ok with set_vc_id1 := -5 } fresh_world).1 = -5 ∧
      t = [Event.kzalloc, Event.mutex_init, Event.dev_set_drvdata,
        Event.omap_dsi_request_vc, Event.omap_dsi_set_vc_id 0 0,
        Event.omap_dsi_request_vc, Event.omap_dsi_set_vc_id 1 0,
        Event.omap_dsi_release_vc 1, Event.omap_dsi_release_vc 0,
        Event.mutex_destroy, Event.kfree] := by
  obtain ⟨t, ht, _, _, _, _, _, _, _, h4, _⟩ :=
    sharp_probe_result { probe_ok with set_vc_id1 := -5 } fresh_world
  exact ⟨t, ht, (h4 rfl rfl rfl rfl (by decide)).1, (h4 rfl rfl rfl rfl (by decide)).2⟩

/-! ## Error paths of power-on -/

/-- C8, the code at two failing inputs, on a device with both platform hooks.
When `platform_enable` fails after a successful `omapdss_dsi_display_enable`,
`sharp_power_on` returns the error having made no `omapdss_dsi_display_disable`
call (one successful enable, zero disables). When `omapdss_dsi_display_enable`
fails, it calls `platform_disable` although `platform_enable` was never called. -/
theorem sharp_power_on_error_paths :
    (sharp_power_on { all_ok with platform_enable := -5 }
        (sample_world OMAP_DSS_DISPLAY_DISABLED true true)).map (fun x => (x.1, x.2.trace))
      = some (-5, [Event.omapdss_dsi_display_enable, Event.platform_enable]) ∧
    (sharp_power_on { all_ok with omapdss_dsi_display_enable := -5 }
        (sample_world OMAP_DSS_DISPLAY_DISABLED true true)).map (fun x => (x.1, x.2.trace))
      = some (-5, [Event.omapdss_dsi_display_enable, Event.platform_disable]) := by
  constructor <;> decide

/-! ## Sequences of enable and disable -/

theorem dcs_bytes_append (a b : List Event) :
    dcs_bytes (a ++ b) = dcs_bytes a ++ dcs_bytes b := by
  induction a with
  | nil => rfl
  | cons e es ih => cases e <;> simp [dcs_bytes, ih]

theorem rounds_succ_end (n : Nat) :
    rounds (n + 1) = rounds n ++ (power_on_pair ++ power_off_pair) := by
  induction n with
  | zero => simp [rounds]
  | succ k ih =>
    calc rounds (k + 1 + 1)
        = power_on_pair ++ power_off_pair ++ rounds (k + 1) := rfl
      _ = power_on_pair ++ power_off_pair ++ (rounds k ++ (power_on_pair ++ power_off_pair)) := by
          rw [ih]
      _ = (power_on_pair ++ power_off_pair ++ rounds k) ++ (power_on_pair ++ power_off_pair) := by
          simp [List.append_assoc]
      _ = rounds (k + 1) ++ (power_on_pair ++ power_off_pair) := rfl

/-- One call of `sharp_enable` keeps `panel_inv`. -/
theorem sharp_enable_inv (o : Extern) (w : World) (sd : sharp_data) (h : panel_inv sd w) :
    ∃ r w', sharp_enable o w = some (r, w') ∧ panel_inv sd w' := by
  obtain ⟨hsd, hst, n, hn⟩ := h
  by_cases hd : w.dssdev.state = OMAP_DSS_DISPLAY_DISABLED
  · have hn0 : dcs_bytes w.trace = rounds n := by simpa [hd] using hn
    by_cases hen : o.omapdss_dsi_display_enable = 0
    · by_cases hpl : w.dssdev.platform_enable = false ∨ o.platform_enable = 0
      · refine ⟨_, _, sharp_enable_ok_eq o w sd hsd hd hen hpl, hsd, Or.inr rfl, n, ?_⟩
        cases w.dssdev.platform_enable <;>
          simp [dcs_bytes_append, dcs_bytes, hn0, power_on_pair]
      · have hpe : w.dssdev.platform_enable = true := by
          cases h : w.dssdev.platform_enable
          · exact absurd (Or.inl h) hpl
          · rfl
        have hp : o.platform_enable ≠ 0 := fun h => hpl (Or.inr h)
        refine ⟨_, _, sharp_enable_err0_eq o w sd hsd hd hen hpe hp, hsd, Or.inl rfl, n, ?_⟩
        simp [dcs_bytes_append, dcs_bytes, hn0]
    · refine ⟨_, _, sharp_enable_err1_eq o w sd hsd hd hen, hsd, Or.inl rfl, n, ?_⟩
      cases w.dssdev.platform_disable <;> simp [dcs_bytes_append, dcs_bytes, hn0]
  · refine ⟨_, _, sharp_enable_busy_eq o w sd hsd hd, hsd, hst, n, ?_⟩
    simpa [dcs_bytes_append, dcs_bytes] using hn

/-- One call of `sharp_disable` keeps `panel_inv`. -/
theorem sharp_disable_inv (o : Extern) (w : World) (sd : sharp_data) (h : panel_inv sd w) :
    ∃ w', sharp_disable o w = some w' ∧ panel_inv sd w' := by
  obtain ⟨hsd, hst, n, hn⟩ := h
  by_cases ha : w.dssdev.state = OMAP_DSS_DISPLAY_ACTIVE
  · have hn1 : dcs_bytes w.trace = rounds n ++ power_on_pair := by simpa [ha] using hn
    refine ⟨_, sharp_disable_active_eq o w sd hsd ha, hsd, Or.inl rfl, n + 1, ?_⟩
    rw [rounds_succ_end]
    cases w.dssdev.platform_disable <;>
      simp [dcs_bytes_append, dcs_bytes, hn1, power_off_pair]
  · have hn0 : dcs_bytes w.trace = rounds n := by simpa [ha] using hn
    refine ⟨_, sharp_disable_idle_eq o w sd hsd ha, hsd, Or.inl rfl, n, ?_⟩
    simp [dcs_bytes_append, dcs_bytes, hn0]

/-- Any sequence of calls keeps `panel_inv`. -/
theorem run_calls_inv (calls : List Call) (w : World) (sd : sharp_data) (h : panel_inv sd w) :
    ∃ w', run_calls calls w = some w' ∧ panel_inv sd w' := by
  induction calls generalizing w with
  | nil => exact ⟨w, rfl, h⟩
  | cons c cs ih =>
    cases c with
    | enable o =>
      obtain ⟨r, w1, he, h1⟩ := sharp_enable_inv o w sd h
      obtain ⟨w2, hr, h2⟩ := ih w1 h1
      exact ⟨w2, by simp [run_calls, he, hr], h2⟩
    | disable o =>
      obtain ⟨w1, he, h1⟩ := sharp_disable_inv o w sd h
      obtain ⟨w2, hr, h2⟩ := ih w1 h1
      exact ⟨w2, by simp [run_calls, he, hr], h2⟩

/-- C10: start from a device in state DISABLED to which no DCS byte has been
written, and make any finite sequence of `sharp_enable` and `sharp_disable` calls
with any outcomes of the external calls. After each call (after the first `k` calls,
for every `k`) the state is DISABLED or ACTIVE, and the DCS bytes written so far are
some number of complete rounds (power-on pair 0x11 0x29, then power-off pair 0x28
0x10) followed by one further power-on pair exactly when the state is ACTIVE. -/
theorem sharp_enable_disable_alternation (calls : List Call) (k : Nat) (w : World)
    (sd : sharp_data) (hsd : w.dssdev.drvdata = some sd)
    (hst : w.dssdev.state = OMAP_DSS_DISPLAY_DISABLED)
    (htr : dcs_bytes w.trace = []) :
    ∃ w', run_calls (calls.take k) w = some w' ∧
      (w'.dssdev.state = OMAP_DSS_DISPLAY_DISABLED ∨
        w'.dssdev.state = OMAP_DSS_DISPLAY_ACTIVE) ∧
      ∃ n, dcs_bytes w'.trace =
        rounds n ++ (if w'.dssdev.state = OMAP_DSS_DISPLAY_ACTIVE then power_on_pair else []) := by
  have h0 : panel_inv sd w := ⟨hsd, Or.inl hst, 0, by simp [htr, hst, rounds]⟩
  obtain ⟨w', hr, _, h1, h2⟩ := run_calls_inv (calls.take k) w sd h0
  exact ⟨w', hr, h1, h2⟩

/-- C10 at a concrete run: enable, enable again, disable, disable again, enable. -/
theorem sharp_enable_disable_alternation_witness :
    ∃ w', run_calls ([Call.enable all_ok, Call.enable all_ok, Call.disable all_ok,
        Call.disable all_ok, Call.enable all_ok].take 5)
        (sample_world OMAP_DSS_DISPLAY_DISABLED true true) = some w' ∧
      (w'.dssdev.state = OMAP_DSS_DISPLAY_DISABLED ∨
        w'.dssdev.state = OMAP_DSS_DISPLAY_ACTIVE) ∧
      ∃ n, dcs_bytes w'.trace =
        rounds n ++ (if w'.dssdev.state = OMAP_DSS_DISPLAY_ACTIVE then power_on_pair else []) :=
  sharp_enable_disable_alternation [Call.enable all_ok, Call.enable all_ok,
    Call.disable all_ok, Call.disable all_ok, Call.enable all_ok] 5
    (sample_world OMAP_DSS_DISPLAY_DISABLED true true) { channel0 := 0, channel1 := 1 }
    rfl rfl rfl

end PanelSharp
